import Mathlib

/-!
# TITAN — The Digital Marketplace: verification of the cart/order engine

A shallow embedding of the repository's two core modules:

* the client-side cart engine (`addToCart`, `removeFromCart`, `changeQty`,
  `clearCart`, `getCartTotal`, `getCartCount`, `loadCart`, `saveCart`,
  `submitOrder`) backed by `localStorage`, and
* the server-side checkout verifier (`POST /api/checkout`).

Conventions of the embedding:

* JavaScript numbers are modelled as exact rationals (`ℚ`); the floating
  point representation of decimal literals is idealised away.
* `JSON.stringify` / `JSON.parse` are the platform's inverse pair on plain
  data: the storage cell holds either nothing (`absent`), text that
  `JSON.parse` rejects (`corrupt`), or the serialized form of a JSON value
  (`stored v`).
* Wall-clock timestamps (`createdAt`) and store-generated identifiers
  (`insertedId`) are outside the model: they come from collaborators and
  are independent of the request contents.
-/

/-- A JSON value, as produced by `JSON.parse` / consumed by `JSON.stringify`. -/
inductive JVal where
  | null
  | bool (b : Bool)
  | num (q : ℚ)
  | str (s : String)
  | arr (l : List JVal)
  | obj (fields : List (String × JVal))
  deriving Repr

/-- JavaScript truthiness of a parsed JSON value (`NaN` cannot arise from
`JSON.parse`, and arrays/objects are always truthy). -/
def truthyJ : JVal → Bool
  | .null => false
  | .bool b => b
  | .num q => q != 0
  | .str s => s != ""
  | .arr _ => true
  | .obj _ => true

/-- A client-supplied JSON scalar as it reaches `parseInt`.  Non-scalar
values (arrays, objects, booleans, null) are first coerced to strings by
`parseInt` and are therefore covered by the `str` case; a missing field is
`undef`. -/
inductive ClientVal where
  | num (q : ℚ)
  | str (s : String)
  | undef
  deriving Repr, DecidableEq

/-- Truncation toward zero, the integer part `parseInt` extracts from the
decimal string rendering of a finite JavaScript number (numbers large
enough to render in exponent notation, `|x| ≥ 1e21`, are outside the
model). -/
def truncRat (q : ℚ) : Int :=
  if 0 ≤ q then ⌊q⌋ else -⌊-q⌋

/-- Value of a single decimal digit character, `none` otherwise. -/
def decDigit? (c : Char) : Option Nat :=
  if c.isDigit then some (c.toNat - '0'.toNat) else none

/-- Value of a single hexadecimal digit character, `none` otherwise. -/
def hexDigit? (c : Char) : Option Nat :=
  if c.isDigit then some (c.toNat - '0'.toNat)
  else if 'a' ≤ c ∧ c ≤ 'f' then some (c.toNat - 'a'.toNat + 10)
  else if 'A' ≤ c ∧ c ≤ 'F' then some (c.toNat - 'A'.toNat + 10)
  else none

/-- Accumulate the leading digits recognised by `dig?` into a number in the
given base, returning `none` when there is no leading digit at all
(`parseInt` yields `NaN` then). -/
def leadingDigits (base : Nat) (dig? : Char → Option Nat) (cs : List Char) : Option Nat :=
  let ds := (cs.takeWhile (fun x => (dig? x).isSome)).filterMap dig?
  if ds.isEmpty then none
  else some (ds.foldl (fun a d => a * base + d) 0)

/-- `parseInt` on a string (radix unspecified): skip leading whitespace, an
optional sign, then read a `0x`/`0X`-prefixed hexadecimal or a decimal
digit run; `none` models `NaN`. -/
def parseIntStr (s : String) : Option Int :=
  let cs := s.toList.dropWhile Char.isWhitespace
  let signed : Int × List Char :=
    match cs with
    | '+' :: r => (1, r)
    | '-' :: r => (-1, r)
    | _ => (1, cs)
  let body : Option Nat :=
    match signed.2 with
    | '0' :: 'x' :: r => leadingDigits 16 hexDigit? r
    | '0' :: 'X' :: r => leadingDigits 16 hexDigit? r
    | r => leadingDigits 10 decDigit? r
  body.map (fun n => signed.1 * n)

/-- `parseInt(v)` for a client-supplied value: strings are parsed, numbers
go through their string rendering (truncation toward zero), `undefined`
renders as `"undefined"` and parses to `NaN`. -/
def parseIntJS : ClientVal → Option Int
  | .num q => some (truncRat q)
  | .str s => parseIntStr s
  | .undef => none

/-- `Math.max(1, parseInt(item.quantity) || 1)` — the verifier's quantity
clamping (`|| 1` replaces `NaN` and `0` with `1`). -/
def normalizeQty (v : ClientVal) : Int :=
  max 1 (match parseIntJS v with
         | none => 1
         | some n => if n = 0 then 1 else n)

/-- `Math.round(x * 100) / 100` with the exact `Math.round` semantics
(`⌊x + 1/2⌋`, ties toward `+∞`): rounding to the cent, half up. -/
def round2 (q : ℚ) : ℚ := (⌊q * 100 + 1/2⌋ : ℚ) / 100

/-! ## Data model -/

/-- A catalog product record, the fields the code reads
(`_id`, `name`, `price`, `image`, `category`, `description`, `rating`,
`reviews`, `badge`). -/
structure Product where
  _id : String
  name : String
  price : ℚ
  image : String
  category : String
  description : String
  rating : ℚ
  reviews : Int
  badge : Option String
  deriving Repr, DecidableEq

/-- A cart line: the full product snapshot spread into the object
(`{...product, quantity}`) plus the quantity. -/
structure CartItem extends Product where
  quantity : Int
  deriving Repr, DecidableEq

/-- `{...product, quantity: q}`. -/
def mkCartItem (p : Product) (q : Int) : CartItem :=
  { toProduct := p, quantity := q }

/-- `item.quantity || 1`: of the `Int`-valued quantities only `0` is falsy. -/
def qtyOrOne (q : Int) : Int := if q = 0 then 1 else q

/-! ## Cart persistence (`localStorage` + `JSON.stringify`/`JSON.parse`) -/

/-- One cart line as `JSON.stringify` serializes it: the spread product
fields in insertion order, then `quantity`; an absent `badge`
(`undefined`) is omitted from the output. -/
def encodeItem (i : CartItem) : JVal :=
  .obj ([("_id", .str i._id), ("name", .str i.name), ("price", .num i.price),
         ("image", .str i.image), ("category", .str i.category),
         ("description", .str i.description), ("rating", .num i.rating),
         ("reviews", .num (i.reviews : ℚ))]
        ++ (match i.badge with
            | some b => [("badge", JVal.str b)]
            | none => [])
        ++ [("quantity", .num (i.quantity : ℚ))])

/-- The whole cart as the JSON array `JSON.stringify(cart)` serializes. -/
def encodeCart (c : List CartItem) : JVal := .arr (c.map encodeItem)

/-- State of the `titan_cart` key in `localStorage`: absent, text that
`JSON.parse` rejects, or the serialized form of a JSON value. -/
inductive StorageState where
  | absent
  | corrupt
  | stored (v : JVal)
  deriving Repr

/-- `loadCart()`:
`try { return JSON.parse(localStorage.getItem(CART_KEY)) || [] } catch { return [] }`.
An absent key gives `JSON.parse(null) = null` (falsy, so `[]`); rejected
text throws into the `catch`; otherwise the parsed value itself is
returned when truthy, `[]` when falsy.  Note there is no validation that
the parsed value is a cart array. -/
def loadCart : StorageState → JVal
  | .absent => .arr []
  | .corrupt => .arr []
  | .stored v => if truthyJ v then v else .arr []

/-! ## Client state and the cart engine -/

/-- The client-side mutable state the cart engine touches: the loaded
product list, the in-memory cart, the `localStorage` cell, and a count of
`saveCart()` invocations (to observe whether a persistence write
happened).  DOM rendering (`updateCartUI`, toasts, animations) is
presentation-only and not modelled. -/
structure ClientState where
  allProducts : List Product
  cart : List CartItem
  storage : StorageState
  writes : Nat
  deriving Repr

/-- `saveCart()`: `localStorage.setItem(CART_KEY, JSON.stringify(cart))`. -/
def saveCart (st : ClientState) : ClientState :=
  { st with storage := .stored (encodeCart st.cart), writes := st.writes + 1 }

/-- Rewrite the first cart line whose `_id` matches `pid` with `f` (the
engine mutates the object found by `cart.find`, which is the first
match). -/
def updateFirst (pid : String) (f : CartItem → CartItem) : List CartItem → List CartItem
  | [] => []
  | i :: rest =>
    if i._id == pid then f i :: rest
    else i :: updateFirst pid f rest

/-- `addToCart(productId)`: resolve the product in `allProducts` (silently
return when absent); merge into an existing line
(`existing.quantity = (existing.quantity || 1) + 1`) or push
`{...product, quantity: 1}`; then `saveCart()`. -/
def addToCart (st : ClientState) (productId : String) : ClientState :=
  match st.allProducts.find? (fun p => p._id == productId) with
  | none => st
  | some product =>
    match st.cart.find? (fun item => item._id == productId) with
    | some _ =>
      saveCart { st with
        cart := updateFirst productId
          (fun i => { i with quantity := qtyOrOne i.quantity + 1 }) st.cart }
    | none =>
      saveCart { st with cart := st.cart ++ [mkCartItem product 1] }

/-- `removeFromCart(productId)`: filter the line out, then `saveCart()`. -/
def removeFromCart (st : ClientState) (productId : String) : ClientState :=
  saveCart { st with cart := st.cart.filter (fun item => !(item._id == productId)) }

/-- `changeQty(productId, delta)`: no-op when the line is absent; otherwise
set the found line's quantity to `(quantity || 1) + delta`, and when that
is `≤ 0` remove the line instead (then `saveCart()` either way). -/
def changeQty (st : ClientState) (productId : String) (delta : Int) : ClientState :=
  match st.cart.find? (fun i => i._id == productId) with
  | none => st
  | some item =>
    let newq := qtyOrOne item.quantity + delta
    let st' := { st with
      cart := updateFirst productId (fun i => { i with quantity := newq }) st.cart }
    if newq ≤ 0 then removeFromCart st' productId
    else saveCart st'

/-- `clearCart()`: empty the cart and `saveCart()`. -/
def clearCart (st : ClientState) : ClientState :=
  saveCart { st with cart := [] }

/-- `getCartTotal()`: `cart.reduce((sum, item) => sum + item.price * (item.quantity || 1), 0)`. -/
def getCartTotal (cart : List CartItem) : ℚ :=
  cart.foldl (fun sum item => sum + item.price * ((qtyOrOne item.quantity : Int) : ℚ)) 0

/-- `getCartCount()`: `cart.reduce((sum, item) => sum + (item.quantity || 1), 0)`. -/
def getCartCount (cart : List CartItem) : Int :=
  cart.foldl (fun sum item => sum + qtyOrOne item.quantity) 0

/-- One user-driven cart mutation, for reasoning about arbitrary
operation sequences. -/
inductive CartOp where
  | add (productId : String)
  | remove (productId : String)
  | change (productId : String) (delta : Int)
  | clear
  deriving Repr

/-- Apply one cart operation to the client state. -/
def applyOp (st : ClientState) : CartOp → ClientState
  | .add pid => addToCart st pid
  | .remove pid => removeFromCart st pid
  | .change pid d => changeQty st pid d
  | .clear => clearCart st

/-- Apply a sequence of cart operations left to right. -/
def applyOps (st : ClientState) (ops : List CartOp) : ClientState :=
  ops.foldl applyOp st

/-! ## Server: `POST /api/checkout` -/

/-- `new ObjectId(s)` for a string accepts exactly a 24-character
hexadecimal string and throws a `BSONError` otherwise. -/
def isValidObjectId (s : String) : Bool :=
  s.length == 24 && s.toList.all (fun c => (hexDigit? c).isSome)

/-- One element of the request's `items` array.  The handler applies
`String(item._id)` before constructing an `ObjectId`, so the identifier is
modelled as the resulting string; the claimed quantity is an arbitrary
client value. -/
structure ReqItem where
  _id : String
  quantity : ClientVal
  deriving Repr, DecidableEq

/-- The request's `customer` object; a missing or empty (falsy) string
field is `none` / `some ""`. -/
structure CustomerJS where
  name : Option String
  email : Option String
  address : Option String
  deriving Repr, DecidableEq

/-- The parsed body of `POST /api/checkout`
(`{ customer, items, total }`).  `customer = none` models a missing or
falsy `customer`; `items = none` models a missing or non-array `items`.
The client-claimed `total` is carried but — as the theorems below show —
never read by the handler. -/
structure CheckoutRequest where
  customer : Option CustomerJS
  items : Option (List ReqItem)
  total : ClientVal
  deriving Repr, DecidableEq

/-- A verified order line as pushed onto `verifiedItems`: catalog-derived
name, price and image with the normalized quantity. -/
structure VerifiedItem where
  productId : String
  name : String
  price : ℚ
  image : String
  quantity : Int
  deriving Repr, DecidableEq

/-- The order document inserted into the `orders` collection
(`createdAt`, a wall-clock timestamp, is outside the model). -/
structure Order where
  custName : String
  custEmail : String
  custAddress : String
  items : List VerifiedItem
  total : ℚ
  status : String
  deriving Repr, DecidableEq

/-- The HTTP response of the checkout handler: an error status with an
`{ error }` body, or `201` with `{ orderId, total, message }` (the
`orderId` comes from the order store and is outside the model). -/
inductive Response where
  | error (status : Nat) (msg : String)
  | created (total : ℚ) (message : String)
  deriving Repr, DecidableEq

/-- Everything observable about one checkout call: the response, the list
of order documents inserted (empty or a singleton), and the trace of
product identifiers looked up in the catalog, in query order. -/
structure CheckoutOutcome where
  response : Response
  persisted : List Order
  lookups : List String
  deriving Repr, DecidableEq

/-- `truthy(s)` for an optional string field: missing and `""` are falsy. -/
def truthyStr : Option String → Bool
  | none => false
  | some s => s != ""

/-- JavaScript's `String.prototype.trim`: strip leading and trailing
whitespace. -/
def jsTrim (s : String) : String :=
  ⟨((s.toList.dropWhile Char.isWhitespace).reverse.dropWhile Char.isWhitespace).reverse⟩

/-- Result of the `for (const item of items)` verification loop. -/
inductive LoopOut where
  | ok (verified : List VerifiedItem) (serverTotal : ℚ)
  | notFound (id : String)
  | thrown
  deriving Repr, DecidableEq

/-- The verification loop, with the `verifiedItems` and `serverTotal`
accumulators of the source and a trace of catalog lookups.  A malformed
identifier makes `new ObjectId` throw before any lookup for that item
(`thrown`); a lookup miss returns the 400 path (`notFound`); otherwise the
line is re-priced from the catalog with the clamped quantity. -/
def verifyLoop (catalog : List Product) :
    List ReqItem → List VerifiedItem → ℚ → List String → LoopOut × List String
  | [], acc, tot, lks => (.ok acc tot, lks)
  | item :: rest, acc, tot, lks =>
    if isValidObjectId item._id then
      match catalog.find? (fun p => p._id == item._id) with
      | none => (.notFound item._id, lks ++ [item._id])
      | some product =>
        let qty := normalizeQty item.quantity
        verifyLoop catalog rest
          (acc ++ [{ productId := product._id, name := product.name,
                     price := product.price, image := product.image,
                     quantity := qty }])
          (tot + product.price * (qty : ℚ))
          (lks ++ [item._id])
    else (.thrown, lks)

/-- The `POST /api/checkout` handler.  `persistOk` says whether the
`orders.insertOne` of this call succeeds; when it throws, the outer
`catch` produces the generic 500 and nothing is persisted. -/
def checkout (catalog : List Product) (persistOk : Bool)
    (req : CheckoutRequest) : CheckoutOutcome :=
  match req.customer, req.items with
  | none, _ => ⟨.error 400 "Invalid order payload", [], []⟩
  | some _, none => ⟨.error 400 "Invalid order payload", [], []⟩
  | some customer, some items =>
    if items.isEmpty then ⟨.error 400 "Invalid order payload", [], []⟩
    else if !(truthyStr customer.name && truthyStr customer.email) then
      ⟨.error 400 "Customer name and email are required", [], []⟩
    else
      match verifyLoop catalog items [] 0 [] with
      | (.thrown, lks) => ⟨.error 500 "Checkout failed. Please try again.", [], lks⟩
      | (.notFound id, lks) => ⟨.error 400 ("Product not found: " ++ id), [], lks⟩
      | (.ok verified serverTotal, lks) =>
        let order : Order :=
          { custName := jsTrim (customer.name.getD ""),
            custEmail := (jsTrim (customer.email.getD "")).toLower,
            custAddress := customer.address.getD "",
            items := verified,
            total := round2 serverTotal,
            status := "pending" }
        if persistOk then
          ⟨.created order.total "Order placed successfully", [order], lks⟩
        else ⟨.error 500 "Checkout failed. Please try again.", [], lks⟩

/-! ## Client: `submitOrder` -/

/-- What the client observes of its `fetch('/api/checkout')`: a parsed
success body, a non-ok HTTP response (whose `error` field feeds the thrown
message), or a transport/parse failure. -/
inductive FetchOutcome where
  | ok (orderId : String) (total : ℚ)
  | httpError (status : Nat) (errMsg : String)
  | netError
  deriving Repr, DecidableEq

/-- `submitOrder`: validate the trimmed form fields (returning with a
toast and an untouched cart when name or email is empty), then on
`res.ok` close the dialog and `clearCart()`; every other outcome lands in
the `catch` and leaves the cart alone. -/
def submitOrder (st : ClientState) (name email : String)
    (outcome : FetchOutcome) : ClientState :=
  if jsTrim name == "" || jsTrim email == "" then st
  else
    match outcome with
    | .ok _ _ => clearCart st
    | .httpError _ _ => st
    | .netError => st

/-! ## Specification-side definitions used by the theorem statements -/

/-- Look a key up in a JSON object's field list (first occurrence). -/
def getField (fields : List (String × JVal)) (k : String) : Option JVal :=
  (fields.find? (fun f => f.1 == k)).map (fun f => f.2)

/-- Read a string field. -/
def getStr (fields : List (String × JVal)) (k : String) : Option String :=
  match getField fields k with
  | some (.str s) => some s
  | _ => none

/-- Read a numeric field. -/
def getNum (fields : List (String × JVal)) (k : String) : Option ℚ :=
  match getField fields k with
  | some (.num q) => some q
  | _ => none

/-- Read an integral numeric field. -/
def getInt (fields : List (String × JVal)) (k : String) : Option Int :=
  match getField fields k with
  | some (.num q) => if q.den = 1 then some q.num else none
  | _ => none

/-- Read an optional string field (absent is fine). -/
def getOptStr (fields : List (String × JVal)) (k : String) : Option (Option String) :=
  match getField fields k with
  | none => some none
  | some (.str s) => some (some s)
  | some _ => none

/-- Read one cart line back out of its JSON form. -/
def decodeItem : JVal → Option CartItem
  | .obj fs => do
    let id ← getStr fs "_id"
    let name ← getStr fs "name"
    let price ← getNum fs "price"
    let image ← getStr fs "image"
    let category ← getStr fs "category"
    let description ← getStr fs "description"
    let rating ← getNum fs "rating"
    let reviews ← getInt fs "reviews"
    let badge ← getOptStr fs "badge"
    let quantity ← getInt fs "quantity"
    pure ⟨⟨id, name, price, image, category, description, rating, reviews, badge⟩, quantity⟩
  | _ => none

/-- Read a whole cart back out of its JSON form: a JSON value represents a
valid serialized cart exactly when this succeeds. -/
def decodeCart : JVal → Option (List CartItem)
  | .arr l => l.mapM decodeItem
  | _ => none

/-- Every cart line's quantity is at least 1. -/
def QtyInv (c : List CartItem) : Prop := ∀ i ∈ c, 1 ≤ i.quantity

/-- The cart invariant of the data model: at most one line per product
identifier, and every line's quantity is at least 1. -/
def CartInv (c : List CartItem) : Prop :=
  (c.map (fun i => i._id)).Nodup ∧ QtyInv c

/-- The exact (unrounded) sum of unit price × quantity over cart lines. -/
def exactCartSum (c : List CartItem) : ℚ :=
  (c.map (fun i => i.price * ((i.quantity : Int) : ℚ))).sum

/-- The exact sum of price × quantity over verified order lines. -/
def sumContrib (vs : List VerifiedItem) : ℚ :=
  (vs.map (fun v => v.price * ((v.quantity : Int) : ℚ))).sum

/-- What the verifier should produce for one request item that resolves:
the catalog product's data with the clamped quantity. -/
def resolveItem (catalog : List Product) (it : ReqItem) : Option VerifiedItem :=
  (catalog.find? (fun p => p._id == it._id)).map
    (fun p => { productId := p._id, name := p.name, price := p.price,
                image := p.image, quantity := normalizeQty it.quantity })

/-! ## Concrete fixtures used by witnesses and counterexamples -/

/-- A catalog product priced $19.99, with a well-formed ObjectId. -/
def pA : Product :=
  { _id := "aaaaaaaaaaaaaaaaaaaaaaaa", name := "Alpha", price := 1999/100,
    image := "imgA", category := "gear", description := "dA",
    rating := 5, reviews := 10, badge := none }

/-- A catalog product priced $29.99, with a well-formed ObjectId. -/
def pB : Product :=
  { _id := "bbbbbbbbbbbbbbbbbbbbbbbb", name := "Beta", price := 2999/100,
    image := "imgB", category := "gear", description := "dB",
    rating := 4, reviews := 3, badge := some "Hot" }

/-- A two-product catalog whose derived checkout total is $49.98. -/
def demoCatalog : List Product := [pA, pB]

/-- A valid customer record. -/
def demoCustomer : CustomerJS :=
  { name := some "Ann", email := some "Ann@Example.com", address := none }

/-- A checkout request for one of each demo product whose client-claimed
`total` is $1.00 — far below the catalog-derived $49.98. -/
def demoReq : CheckoutRequest :=
  { customer := some demoCustomer,
    items := some [⟨"aaaaaaaaaaaaaaaaaaaaaaaa", .num 1⟩,
                   ⟨"bbbbbbbbbbbbbbbbbbbbbbbb", .num 1⟩],
    total := .num 1 }

/-- A checkout request one of whose items carries an identifier that is
not a 24-character hex string (so it can never match a catalog product). -/
def badIdReq : CheckoutRequest :=
  { customer := some ⟨some "A", some "a@b.c", none⟩,
    items := some [⟨"deleted-product-1", .num 1⟩],
    total := .num 1 }

/-- A checkout request for a well-formed identifier that is absent from
the demo one-product catalog `[pA]`. -/
def missReq : CheckoutRequest :=
  { customer := some ⟨some "A", some "a@b.c", none⟩,
    items := some [⟨"bbbbbbbbbbbbbbbbbbbbbbbb", .num 1⟩],
    total := .num 1 }

/-- A checkout request claiming the non-numeric quantity `"abc"` for the
$19.99 product. -/
def qtyAbcReq : CheckoutRequest :=
  { customer := some ⟨some "A", some "a@b.c", none⟩,
    items := some [⟨"aaaaaaaaaaaaaaaaaaaaaaaa", .str "abc"⟩],
    total := .num 1 }

/-- The verified order line the checkout derives for `qtyAbcReq`:
catalog data of `pA` with the clamped quantity 1. -/
def viAbc : VerifiedItem :=
  { productId := "aaaaaaaaaaaaaaaaaaaaaaaa", name := "Alpha",
    price := 1999/100, image := "imgA", quantity := 1 }

/-- A client state with one product loaded and one line in the cart. -/
def stDemo : ClientState :=
  { allProducts := [pA, pB],
    cart := [mkCartItem pA 1],
    storage := .stored (encodeCart [mkCartItem pA 1]),
    writes := 1 }

/-- A client state with products loaded and an empty cart. -/
def stEmpty : ClientState :=
  { allProducts := [pA, pB], cart := [], storage := .absent, writes := 0 }

/-! ## Cart engine lemmas -/

theorem updateFirst_map_id (pid : String) (f : CartItem → CartItem)
    (hf : ∀ i, (f i)._id = i._id) :
    ∀ c : List CartItem,
      (updateFirst pid f c).map (fun i => i._id) = c.map (fun i => i._id)
  | [] => rfl
  | i :: rest => by
    by_cases h : (i._id == pid) = true
    · simp [updateFirst, h, hf]
    · simp [updateFirst, h, updateFirst_map_id pid f hf rest]

theorem mem_updateFirst {pid : String} {f : CartItem → CartItem} :
    ∀ {c : List CartItem} {i : CartItem}, i ∈ updateFirst pid f c →
      i ∈ c ∨ ∃ j ∈ c, (j._id == pid) = true ∧ i = f j
  | [], i, h => by simp [updateFirst] at h
  | j :: rest, i, h => by
    by_cases hj : (j._id == pid) = true
    · simp only [updateFirst, hj, if_pos, List.mem_cons] at h
      rcases h with h | h
      · exact Or.inr ⟨j, List.mem_cons_self j rest, hj, h⟩
      · exact Or.inl (List.mem_cons_of_mem _ h)
    · simp only [updateFirst] at h
      rw [if_neg hj] at h
      rcases List.mem_cons.mp h with h | h
      · exact Or.inl (by simp [h])
      · rcases mem_updateFirst h with h' | ⟨k, hk, hkid, hik⟩
        · exact Or.inl (List.mem_cons_of_mem _ h')
        · exact Or.inr ⟨k, List.mem_cons_of_mem _ hk, hkid, hik⟩

theorem qtyInv_filter {c : List CartItem} (h : QtyInv c) (p : CartItem → Bool) :
    QtyInv (c.filter p) :=
  fun i hi => h i (List.mem_of_mem_filter hi)

theorem nodup_ids_filter {c : List CartItem}
    (h : (c.map (fun i => i._id)).Nodup) (p : CartItem → Bool) :
    ((c.filter p).map (fun i => i._id)).Nodup :=
  ((List.filter_sublist c).map (fun i => i._id)).nodup h

theorem qtyInv_addToCart (st : ClientState) (pid : String) (h : QtyInv st.cart) :
    QtyInv (addToCart st pid).cart := by
  rcases hp : st.allProducts.find? (fun p => p._id == pid) with _ | product
  · simpa [addToCart, hp] using h
  · rcases hc : st.cart.find? (fun item => item._id == pid) with _ | it
    · intro i hi
      simp only [addToCart, hp, hc, saveCart] at hi
      rcases List.mem_append.mp hi with hin | hin
      · exact h i hin
      · simp only [List.mem_singleton] at hin
        subst hin
        simp [mkCartItem]
    · intro i hi
      simp only [addToCart, hp, hc, saveCart] at hi
      rcases mem_updateFirst hi with hin | ⟨j, hj, _, rfl⟩
      · exact h i hin
      · have hq := h j hj
        simp only [qtyOrOne]
        rw [if_neg (by omega : ¬ j.quantity = 0)]
        omega

theorem qtyInv_removeFromCart (st : ClientState) (pid : String) (h : QtyInv st.cart) :
    QtyInv (removeFromCart st pid).cart := by
  intro i hi
  simp only [removeFromCart, saveCart] at hi
  exact qtyInv_filter h _ i hi

theorem qtyInv_changeQty (st : ClientState) (pid : String) (delta : Int)
    (h : QtyInv st.cart) : QtyInv (changeQty st pid delta).cart := by
  rcases hc : st.cart.find? (fun i => i._id == pid) with _ | item
  · simpa [changeQty, hc] using h
  · by_cases hle : qtyOrOne item.quantity + delta ≤ 0
    · intro i hi
      simp only [changeQty, hc, hle, if_pos, removeFromCart, saveCart] at hi
      have hi' := List.mem_of_mem_filter hi
      have hpred := List.of_mem_filter hi
      rcases mem_updateFirst hi' with hin | ⟨j, hj, hjid, rfl⟩
      · exact h i hin
      · exfalso
        simp only [Bool.not_eq_true'] at hpred
        have : (j._id == pid) = false := hpred
        rw [this] at hjid
        exact Bool.false_ne_true hjid
    · intro i hi
      simp only [changeQty, hc, hle, if_neg, saveCart] at hi
      rcases mem_updateFirst hi with hin | ⟨j, hj, _, rfl⟩
      · exact h i hin
      · simpa using by omega

theorem nodup_addToCart (st : ClientState) (pid : String)
    (h : (st.cart.map (fun i => i._id)).Nodup) :
    ((addToCart st pid).cart.map (fun i => i._id)).Nodup := by
  rcases hp : st.allProducts.find? (fun p => p._id == pid) with _ | product
  · simpa [addToCart, hp] using h
  · rcases hc : st.cart.find? (fun item => item._id == pid) with _ | it
    · have hpid : product._id = pid := by
        have := List.find?_some hp
        simpa using this
      have hnot : ∀ i ∈ st.cart, ¬ i._id = pid := by
        intro i hi
        have := List.find?_eq_none.mp hc i hi
        simpa using this
      simp only [addToCart, hp, hc, saveCart, List.map_append]
      simp only [List.nodup_append, List.map_cons, List.map_nil]
      refine ⟨h, List.nodup_singleton _, ?_⟩
      intro a ha hb
      simp only [mkCartItem, List.mem_singleton] at hb
      rcases List.mem_map.mp ha with ⟨i, hi, rfl⟩
      exact hnot i hi (by rw [hb, hpid])
    · simp only [addToCart, hp, hc, saveCart]
      rw [updateFirst_map_id pid
            (fun i => { i with quantity := qtyOrOne i.quantity + 1 }) (fun i => rfl)]
      exact h

theorem nodup_removeFromCart (st : ClientState) (pid : String)
    (h : (st.cart.map (fun i => i._id)).Nodup) :
    ((removeFromCart st pid).cart.map (fun i => i._id)).Nodup := by
  simp only [removeFromCart, saveCart]
  exact nodup_ids_filter h _

theorem nodup_changeQty (st : ClientState) (pid : String) (delta : Int)
    (h : (st.cart.map (fun i => i._id)).Nodup) :
    ((changeQty st pid delta).cart.map (fun i => i._id)).Nodup := by
  rcases hc : st.cart.find? (fun i => i._id == pid) with _ | item
  · simpa [changeQty, hc] using h
  · have hids : ∀ f : CartItem → CartItem, (∀ i, (f i)._id = i._id) →
        ((updateFirst pid f st.cart).map (fun i => i._id)).Nodup :=
      fun f hf => (updateFirst_map_id pid f hf st.cart) ▸ h
    by_cases hle : qtyOrOne item.quantity + delta ≤ 0
    · simp only [changeQty, hc, hle, if_pos, removeFromCart, saveCart]
      exact nodup_ids_filter
        (hids (fun i => { i with quantity := qtyOrOne item.quantity + delta })
          (fun i => rfl)) _
    · simp only [changeQty, hc, hle, if_neg, saveCart]
      exact hids (fun i => { i with quantity := qtyOrOne item.quantity + delta })
        (fun i => rfl)

theorem cartInv_clearCart (st : ClientState) : CartInv (clearCart st).cart := by
  constructor
  · simp [clearCart, saveCart]
  · intro i hi
    simp [clearCart, saveCart] at hi

theorem qtyInv_applyOp (st : ClientState) (op : CartOp) (h : QtyInv st.cart) :
    QtyInv (applyOp st op).cart := by
  cases op with
  | add pid => exact qtyInv_addToCart st pid h
  | remove pid => exact qtyInv_removeFromCart st pid h
  | change pid d => exact qtyInv_changeQty st pid d h
  | clear => exact (cartInv_clearCart st).2

theorem cartInv_applyOp (st : ClientState) (op : CartOp) (h : CartInv st.cart) :
    CartInv (applyOp st op).cart := by
  cases op with
  | add pid => exact ⟨nodup_addToCart st pid h.1, qtyInv_addToCart st pid h.2⟩
  | remove pid => exact ⟨nodup_removeFromCart st pid h.1, qtyInv_removeFromCart st pid h.2⟩
  | change pid d => exact ⟨nodup_changeQty st pid d h.1, qtyInv_changeQty st pid d h.2⟩
  | clear => exact cartInv_clearCart st

theorem qtyInv_applyOps (ops : List CartOp) :
    ∀ st : ClientState, QtyInv st.cart → QtyInv (applyOps st ops).cart := by
  induction ops with
  | nil => intro st h; exact h
  | cons op rest ih =>
    intro st h
    exact ih (applyOp st op) (qtyInv_applyOp st op h)

theorem cartInv_applyOps (ops : List CartOp) :
    ∀ st : ClientState, CartInv st.cart → CartInv (applyOps st ops).cart := by
  induction ops with
  | nil => intro st h; exact h
  | cons op rest ih =>
    intro st h
    exact ih (applyOp st op) (cartInv_applyOp st op h)

theorem getCartTotal_foldl (c : List CartItem) (h : ∀ i ∈ c, i.quantity ≠ 0) :
    ∀ a : ℚ,
      c.foldl (fun sum item => sum + item.price * ((qtyOrOne item.quantity : Int) : ℚ)) a
        = a + exactCartSum c := by
  induction c with
  | nil => intro a; simp [exactCartSum]
  | cons i rest ih =>
    intro a
    have hi : i.quantity ≠ 0 := h i (List.mem_cons_self i rest)
    simp only [List.foldl_cons]
    rw [ih (fun j hj => h j (List.mem_cons_of_mem _ hj))]
    simp only [exactCartSum, List.map_cons, List.sum_cons, qtyOrOne, if_neg hi]
    ring

theorem getCartTotal_eq_exact (c : List CartItem) (h : QtyInv c) :
    getCartTotal c = exactCartSum c := by
  unfold getCartTotal
  rw [getCartTotal_foldl c (fun i hi => by have := h i hi; omega) 0]
  ring

theorem updateFirst_append_no_match (pid : String) (f : CartItem → CartItem) :
    ∀ (c : List CartItem), (∀ i ∈ c, ¬ (i._id == pid) = true) →
      ∀ l, updateFirst pid f (c ++ l) = c ++ updateFirst pid f l
  | [], _, l => rfl
  | j :: rest, h, l => by
    have hj := h j (List.mem_cons_self j rest)
    simp only [List.cons_append, updateFirst, if_neg hj, List.append_eq]
    rw [updateFirst_append_no_match pid f rest
          (fun i hi => h i (List.mem_cons_of_mem _ hi)) l]

theorem filter_updateFirst (pid : String) (f : CartItem → CartItem)
    (hf : ∀ i, (f i)._id = i._id) :
    ∀ c : List CartItem,
      (updateFirst pid f c).filter (fun i => !(i._id == pid))
        = c.filter (fun i => !(i._id == pid))
  | [] => rfl
  | j :: rest => by
    by_cases hj : (j._id == pid) = true
    · have hfj : ((f j)._id == pid) = true := by rw [hf j]; exact hj
      rw [updateFirst, if_pos hj]
      simp [List.filter_cons, hfj, hj]
    · have hjf : (j._id == pid) = false := by simpa using hj
      rw [updateFirst, if_neg hj]
      simp [List.filter_cons, hjf, filter_updateFirst pid f hf rest]

theorem addToCart_push (st : ClientState) (pid : String) (p : Product)
    (hp : st.allProducts.find? (fun q => q._id == pid) = some p)
    (hc : st.cart.find? (fun i => i._id == pid) = none) :
    addToCart st pid
      = saveCart { st with cart := st.cart ++ [mkCartItem p 1] } := by
  simp [addToCart, hp, hc]

theorem addToCart_twice (st : ClientState) (pid : String) (p : Product)
    (hp : st.allProducts.find? (fun q => q._id == pid) = some p)
    (hc : st.cart.find? (fun i => i._id == pid) = none) :
    (addToCart (addToCart st pid) pid).cart = st.cart ++ [mkCartItem p 2] := by
  have hpid : p._id = pid := by
    have := List.find?_some hp
    simpa using this
  have hnot : ∀ i ∈ st.cart, ¬ (i._id == pid) = true :=
    fun i hi => List.find?_eq_none.mp hc i hi
  rw [addToCart_push st pid p hp hc]
  have hfind2 : ((saveCart { st with cart := st.cart ++ [mkCartItem p 1] }).cart.find?
      (fun i => i._id == pid)) = some (mkCartItem p 1) := by
    simp only [saveCart]
    rw [List.find?_append, hc]
    simp [mkCartItem, hpid]
  simp only [addToCart, saveCart, hp] at hfind2 ⊢
  rw [hfind2]
  simp only []
  rw [updateFirst_append_no_match pid _ st.cart hnot]
  simp [updateFirst, mkCartItem, hpid, qtyOrOne]

theorem changeQty_deletes (st : ClientState) (pid : String) (delta : Int)
    (item : CartItem)
    (hfind : st.cart.find? (fun i => i._id == pid) = some item)
    (hdel : qtyOrOne item.quantity + delta ≤ 0) :
    (changeQty st pid delta).cart
      = st.cart.filter (fun i => !(i._id == pid)) := by
  simp only [changeQty, hfind, hdel, if_pos, removeFromCart, saveCart]
  exact filter_updateFirst pid
    (fun i => { i with quantity := qtyOrOne item.quantity + delta })
    (fun i => rfl) st.cart

/-! ## Serialization lemmas -/

theorem decodeItem_encodeItem (i : CartItem) : decodeItem (encodeItem i) = some i := by
  rcases i with ⟨⟨id, nm, pr, im, cat, de, ra, re, bd⟩, q⟩
  cases bd <;>
    simp [decodeItem, encodeItem, getField, getStr, getNum, getInt, getOptStr,
          List.find?, Rat.den_intCast, Rat.num_intCast]

theorem decodeCart_encodeCart (c : List CartItem) : decodeCart (encodeCart c) = some c := by
  simp only [decodeCart, encodeCart]
  induction c with
  | nil => rfl
  | cons i rest ih =>
    simp only [List.map_cons, List.mapM_cons, decodeItem_encodeItem i,
               Option.bind_eq_bind, Option.some_bind] at ih ⊢
    rw [ih]
    rfl

/-! ## Checkout verifier lemmas -/

theorem verifyLoop_ok (catalog : List Product) :
    ∀ (items : List ReqItem) (vs : List VerifiedItem),
      (∀ it ∈ items, isValidObjectId it._id = true) →
      items.mapM (resolveItem catalog) = some vs →
      ∀ (acc : List VerifiedItem) (tot : ℚ) (lks : List String),
        verifyLoop catalog items acc tot lks
          = (.ok (acc ++ vs) (tot + sumContrib vs),
             lks ++ items.map (fun it => it._id)) := by
  intro items
  induction items with
  | nil =>
    intro vs _ hres acc tot lks
    simp only [List.mapM_nil, Option.pure_def, Option.some.injEq] at hres
    subst hres
    simp [verifyLoop, sumContrib]
  | cons it rest ih =>
    intro vs hval hres acc tot lks
    simp only [List.mapM_cons, Option.pure_def, Option.bind_eq_bind,
               Option.bind_eq_some, Option.some.injEq] at hres
    rcases hres with ⟨v, hv, vs', hvs', rfl⟩
    have hvi := hval it (List.mem_cons_self it rest)
    rcases hfp : catalog.find? (fun p => p._id == it._id) with _ | p
    · rw [resolveItem, hfp] at hv
      simp at hv
    · rw [resolveItem, hfp] at hv
      simp only [Option.map_some', Option.some.injEq] at hv
      subst hv
      simp only [verifyLoop, hvi, if_true, hfp]
      rw [ih vs' (fun x hx => hval x (List.mem_cons_of_mem _ hx)) hvs']
      simp only [Prod.mk.injEq, LoopOut.ok.injEq, sumContrib, List.map_cons,
                 List.sum_cons, List.append_assoc, List.singleton_append,
                 true_and, and_true]
      ring

theorem verifyLoop_not_ok (catalog : List Product) :
    ∀ (items : List ReqItem),
      (∃ it ∈ items, catalog.find? (fun p => p._id == it._id) = none) →
      ∀ acc tot lks vs t l,
        verifyLoop catalog items acc tot lks ≠ (.ok vs t, l) := by
  intro items
  induction items with
  | nil => intro h; simp at h
  | cons it rest ih =>
    intro h acc tot lks vs t l
    by_cases hval : isValidObjectId it._id = true
    · rcases hfp : catalog.find? (fun p => p._id == it._id) with _ | p
      · simp [verifyLoop, hval, hfp]
      · rcases h with ⟨w, hw, hwnone⟩
        rcases List.mem_cons.mp hw with rfl | hwrest
        · rw [hfp] at hwnone
          exact absurd hwnone (by simp)
        · simp only [verifyLoop, hval, if_true, hfp]
          exact ih ⟨w, hwrest, hwnone⟩ _ _ _ vs t l
    · simp [verifyLoop, hval]

theorem verifyLoop_notFound (catalog : List Product) :
    ∀ (items : List ReqItem),
      (∀ it ∈ items, isValidObjectId it._id = true) →
      (∃ it ∈ items, catalog.find? (fun p => p._id == it._id) = none) →
      ∀ acc tot lks, ∃ badId lks',
        verifyLoop catalog items acc tot lks = (.notFound badId, lks')
          ∧ badId ∈ items.map (fun it => it._id)
          ∧ catalog.find? (fun p => p._id == badId) = none := by
  intro items
  induction items with
  | nil => intro _ h; simp at h
  | cons it rest ih =>
    intro hval h acc tot lks
    have hvi := hval it (List.mem_cons_self it rest)
    rcases hfp : catalog.find? (fun p => p._id == it._id) with _ | p
    · refine ⟨it._id, lks ++ [it._id], ?_, by simp, hfp⟩
      simp [verifyLoop, hvi, hfp]
    · rcases h with ⟨w, hw, hwnone⟩
      rcases List.mem_cons.mp hw with rfl | hwrest
      · rw [hfp] at hwnone
        exact absurd hwnone (by simp)
      · rcases ih (fun x hx => hval x (List.mem_cons_of_mem _ hx)) ⟨w, hwrest, hwnone⟩
          (acc ++ [{ productId := p._id, name := p.name, price := p.price,
                     image := p.image, quantity := normalizeQty it.quantity }])
          (tot + p.price * ((normalizeQty it.quantity : Int) : ℚ))
          (lks ++ [it._id]) with ⟨badId, lks', heq, hmem, hnone⟩
        refine ⟨badId, lks', ?_, ?_, hnone⟩
        · simp only [verifyLoop, hvi, if_true, hfp]
          exact heq
        · simp only [List.map_cons, List.mem_cons]
          exact Or.inr hmem

/-! ## Claims -/

/-- C1: the client-supplied `total` field is advisory only.  Any two
checkout requests that agree on `customer` and `items` (differing at most
in `total`) produce identical outcomes — the same persisted order
documents and the same response; and concretely, a client-claimed total of
$1.00 against the two-product catalog whose prices sum to $49.98 yields a
persisted order whose total is $49.98 and a success response carrying
$49.98. -/
theorem C1_client_total_ignored :
    (∀ (catalog : List Product) (persistOk : Bool) (r1 r2 : CheckoutRequest),
       r1.customer = r2.customer → r1.items = r2.items →
       checkout catalog persistOk r1 = checkout catalog persistOk r2)
    ∧ demoReq.total = ClientVal.num 1
    ∧ (checkout demoCatalog true demoReq).response
        = .created (4998/100) "Order placed successfully"
    ∧ (checkout demoCatalog true demoReq).persisted.map Order.total
        = [4998/100] := by
  refine ⟨?_, rfl, ?_, ?_⟩
  · intro catalog persistOk r1 r2 hcu hit
    rcases r1 with ⟨cu1, it1, t1⟩
    rcases r2 with ⟨cu2, it2, t2⟩
    simp only at hcu hit
    subst hcu
    subst hit
    rfl
  all_goals
  · simp [checkout, demoReq, demoCatalog, demoCustomer, pA, pB, verifyLoop,
          isValidObjectId, hexDigit?, truthyStr, normalizeQty, parseIntJS, truncRat,
          show ("aaaaaaaaaaaaaaaaaaaaaaaa".length = 24) from by decide,
          show ("bbbbbbbbbbbbbbbbbbbbbbbb".length = 24) from by decide]
    norm_num [round2]

/-- Witness for C1: instantiating the noninterference conjunct at the demo
catalog and two concrete requests that differ only in the claimed total
($1.00 vs $999.99). -/
theorem C1_client_total_ignored_witness :
    checkout demoCatalog true { demoReq with total := ClientVal.num 1 }
      = checkout demoCatalog true { demoReq with total := ClientVal.num (99999/100) } :=
  C1_client_total_ignored.1 demoCatalog true _ _ rfl rfl

/-- C10: `addToCart` with a product identifier that resolves to nothing in
the loaded product list is a complete no-op — the in-memory cart, the
persisted cart and the write counter are all unchanged. -/
theorem C10_add_unknown_is_noop :
    ∀ (st : ClientState) (pid : String),
      st.allProducts.find? (fun p => p._id == pid) = none →
      addToCart st pid = st := by
  intro st pid h
  simp [addToCart, h]

/-- Witness for C10: adding an identifier absent from the demo product
list leaves the demo state untouched. -/
theorem C10_add_unknown_is_noop_witness :
    addToCart stDemo "cccccccccccccccccccccccc" = stDemo :=
  C10_add_unknown_is_noop stDemo _ (by decide)

/-- C8: persisting a cart and then restoring it yields the identical cart:
`saveCart` stores the serialized cart, `loadCart` hands it back verbatim
(it is truthy), and reading the cart structure back out (`decodeCart`)
recovers exactly the original lines. -/
theorem C8_persist_restore_roundtrip :
    ∀ st : ClientState,
      loadCart (saveCart st).storage = encodeCart st.cart
      ∧ decodeCart (loadCart (saveCart st).storage) = some st.cart := by
  intro st
  have h1 : loadCart (saveCart st).storage = encodeCart st.cart := by
    simp [saveCart, loadCart, encodeCart, truthyJ]
  refine ⟨h1, ?_⟩
  rw [h1]
  exact decodeCart_encodeCart st.cart

/-- C9 (amended): `loadCart` degrades an absent key or unparseable text to
the empty cart without throwing, and a parsed-but-falsy value also becomes
the empty cart; a parsed truthy value, however, is returned as-is — even
when it is not a valid serialized cart. -/
theorem C9_load_degrades_to_empty :
    loadCart .absent = .arr []
    ∧ loadCart .corrupt = .arr []
    ∧ (∀ v : JVal, truthyJ v = false → loadCart (.stored v) = .arr [])
    ∧ (∀ v : JVal, truthyJ v = true → loadCart (.stored v) = v) := by
  refine ⟨rfl, rfl, ?_, ?_⟩
  · intro v hv
    simp [loadCart, hv]
  · intro v hv
    simp [loadCart, hv]

/-- Witness for C9 (amended): `null` (falsy) degrades to the empty cart;
the truthy string `"x"` is handed back unchanged. -/
theorem C9_load_degrades_to_empty_witness :
    loadCart (.stored .null) = .arr []
    ∧ loadCart (.stored (.str "x")) = .str "x" :=
  ⟨C9_load_degrades_to_empty.2.2.1 .null rfl,
   C9_load_degrades_to_empty.2.2.2 (.str "x") (by decide)⟩

/-- Counterexample for C9 as stated: the storage text `"{}"` parses to the
empty JSON object — not a valid serialized cart (`decodeCart` rejects
it) — yet `loadCart` returns that object itself, not an empty cart. -/
theorem C9_load_malformed_counterexample :
    loadCart (.stored (.obj [])) = .obj []
    ∧ decodeCart (.obj []) = none
    ∧ loadCart (.stored (.obj [])) ≠ .arr [] := by
  refine ⟨rfl, rfl, ?_⟩
  intro h
  exact JVal.noConfusion h

/-- C5: `submitOrder` never touches the cart on a failed checkout attempt
(client-side validation failure, any non-ok HTTP response — validation
error, unknown product or persistence failure — or a transport error);
the cart can only change when an ok response arrives, and then it is
cleared. -/
theorem C5_cart_preserved_on_failure :
    (∀ (st : ClientState) (n e : String) (out : FetchOutcome),
       (∀ oid t, out ≠ .ok oid t) → submitOrder st n e out = st)
    ∧ (∀ (st : ClientState) (n e : String) (out : FetchOutcome),
       (submitOrder st n e out).cart ≠ st.cart → ∃ oid t, out = .ok oid t)
    ∧ (∀ (st : ClientState) (n e : String) (oid : String) (t : ℚ),
       ¬ jsTrim n = "" → ¬ jsTrim e = "" →
       (submitOrder st n e (.ok oid t)).cart = []) := by
  have hfail : ∀ (st : ClientState) (n e : String) (out : FetchOutcome),
      (∀ oid t, out ≠ .ok oid t) → submitOrder st n e out = st := by
    intro st n e out h
    unfold submitOrder
    by_cases hv : (jsTrim n == "" || jsTrim e == "") = true
    · rw [if_pos hv]
    · rw [if_neg hv]
      cases out with
      | ok oid t => exact absurd rfl (h oid t)
      | httpError s m => rfl
      | netError => rfl
  refine ⟨hfail, ?_, ?_⟩
  · intro st n e out h
    cases out with
    | ok oid t => exact ⟨oid, t, rfl⟩
    | httpError s m =>
      exact absurd (congrArg ClientState.cart
        (hfail st n e _ (fun _ _ h' => FetchOutcome.noConfusion h'))) h
    | netError =>
      exact absurd (congrArg ClientState.cart
        (hfail st n e _ (fun _ _ h' => FetchOutcome.noConfusion h'))) h
  · intro st n e oid t hn he
    unfold submitOrder
    have hv : (jsTrim n == "" || jsTrim e == "") = false := by
      simp [hn, he]
    rw [hv]
    simp [clearCart, saveCart]

/-- Witness for C5: on the demo state, a 400 response and a transport
error both leave the one-line cart untouched, while an ok response clears
it. -/
theorem C5_cart_preserved_on_failure_witness :
    submitOrder stDemo "Ann" "a@b.c" (.httpError 400 "Invalid order payload") = stDemo
    ∧ submitOrder stDemo "Ann" "a@b.c" .netError = stDemo
    ∧ (submitOrder stDemo "Ann" "a@b.c" (.ok "order1" (1999/100))).cart = [] :=
  ⟨C5_cart_preserved_on_failure.1 stDemo "Ann" "a@b.c" _
     (fun _ _ h => FetchOutcome.noConfusion h),
   C5_cart_preserved_on_failure.1 stDemo "Ann" "a@b.c" _
     (fun _ _ h => FetchOutcome.noConfusion h),
   C5_cart_preserved_on_failure.2.2 stDemo "Ann" "a@b.c" "order1" (1999/100)
     (by decide) (by decide)⟩

/-- C7: after any sequence of cart operations applied to a state whose
cart lines all have quantity ≥ 1, `getCartTotal` is exactly the sum of
unit price × quantity over the lines — no rounding happens inside the
accumulation. -/
theorem C7_total_is_exact_sum :
    ∀ (st : ClientState) (ops : List CartOp),
      QtyInv st.cart →
      getCartTotal (applyOps st ops).cart = exactCartSum (applyOps st ops).cart :=
  fun st ops h => getCartTotal_eq_exact _ (qtyInv_applyOps ops st h)

/-- Witness for C7: a concrete add/add/change/remove sequence from the
empty cart, where the hypothesis holds vacuously. -/
theorem C7_total_is_exact_sum_witness :
    QtyInv stEmpty.cart
    ∧ getCartTotal (applyOps stEmpty
        [.add "aaaaaaaaaaaaaaaaaaaaaaaa", .add "bbbbbbbbbbbbbbbbbbbbbbbb",
         .change "aaaaaaaaaaaaaaaaaaaaaaaa" 2, .remove "bbbbbbbbbbbbbbbbbbbbbbbb"]).cart
      = exactCartSum (applyOps stEmpty
        [.add "aaaaaaaaaaaaaaaaaaaaaaaa", .add "bbbbbbbbbbbbbbbbbbbbbbbb",
         .change "aaaaaaaaaaaaaaaaaaaaaaaa" 2, .remove "bbbbbbbbbbbbbbbbbbbbbbbb"]).cart :=
  ⟨fun i hi => absurd hi (List.not_mem_nil i),
   C7_total_is_exact_sum stEmpty _ (fun i hi => absurd hi (List.not_mem_nil i))⟩

/-- C6: every cart operation preserves the cart invariant (unique line per
product identifier, quantities ≥ 1); adding a product that already has a
line merges into that line — adding the same resolvable product twice to a
cart without it yields exactly one appended line with quantity 2 — and a
quantity change whose result is ≤ 0 (such as `changeQty(id, -quantity)`)
deletes the line entirely. -/
theorem C6_cart_invariant_preserved :
    (∀ (st : ClientState) (op : CartOp),
       CartInv st.cart → CartInv (applyOp st op).cart)
    ∧ (∀ (st : ClientState) (pid : String) (p : Product),
       st.allProducts.find? (fun q => q._id == pid) = some p →
       st.cart.find? (fun i => i._id == pid) = none →
       (addToCart (addToCart st pid) pid).cart = st.cart ++ [mkCartItem p 2])
    ∧ (∀ (st : ClientState) (pid : String) (delta : Int) (item : CartItem),
       st.cart.find? (fun i => i._id == pid) = some item →
       1 ≤ item.quantity → item.quantity + delta ≤ 0 →
       (changeQty st pid delta).cart
         = st.cart.filter (fun i => !(i._id == pid))) := by
  refine ⟨fun st op h => cartInv_applyOp st op h, addToCart_twice, ?_⟩
  intro st pid delta item hfind hq hdel
  have hne : item.quantity ≠ 0 := by omega
  exact changeQty_deletes st pid delta item hfind
    (by rw [qtyOrOne, if_neg hne]; exact hdel)

/-- Witness for C6: on concrete states, adding to a valid one-line cart
keeps the invariant; adding the $19.99 product twice to an empty cart
yields one line with quantity 2; and `changeQty(id, -1)` on its
quantity-1 line deletes the line. -/
theorem C6_cart_invariant_preserved_witness :
    CartInv ((applyOp stDemo (.add "aaaaaaaaaaaaaaaaaaaaaaaa")).cart)
    ∧ (addToCart (addToCart stEmpty "aaaaaaaaaaaaaaaaaaaaaaaa")
        "aaaaaaaaaaaaaaaaaaaaaaaa").cart = stEmpty.cart ++ [mkCartItem pA 2]
    ∧ (changeQty stDemo "aaaaaaaaaaaaaaaaaaaaaaaa" (-1)).cart
        = stDemo.cart.filter (fun i => !(i._id == "aaaaaaaaaaaaaaaaaaaaaaaa")) :=
  ⟨C6_cart_invariant_preserved.1 stDemo (.add "aaaaaaaaaaaaaaaaaaaaaaaa")
     (by unfold CartInv QtyInv stDemo; decide),
   C6_cart_invariant_preserved.2.1 stEmpty "aaaaaaaaaaaaaaaaaaaaaaaa" pA rfl rfl,
   C6_cart_invariant_preserved.2.2 stDemo "aaaaaaaaaaaaaaaaaaaaaaaa" (-1)
     (mkCartItem pA 1) rfl (by decide) (by decide)⟩

/-- C3: a checkout request with an empty item list, or a present customer
whose name or email is missing or empty, is rejected with a 400 validation
error before anything else happens: no catalog lookup is issued and no
order is persisted. -/
theorem C3_validation_precedes_lookup :
    ∀ (catalog : List Product) (persistOk : Bool) (req : CheckoutRequest),
      (req.items = some []
        ∨ (∃ c, req.customer = some c ∧ truthyStr c.name = false)
        ∨ (∃ c, req.customer = some c ∧ truthyStr c.email = false)) →
      (∃ msg, (checkout catalog persistOk req).response = .error 400 msg)
      ∧ (checkout catalog persistOk req).lookups = []
      ∧ (checkout catalog persistOk req).persisted = [] := by
  intro catalog persistOk req hyp
  rcases req with ⟨cu, its, t⟩
  rcases cu with _ | c
  · exact ⟨⟨"Invalid order payload", rfl⟩, rfl, rfl⟩
  · rcases its with _ | l
    · exact ⟨⟨"Invalid order payload", rfl⟩, rfl, rfl⟩
    · rcases l with _ | ⟨x, xs⟩
      · exact ⟨⟨"Invalid order payload", rfl⟩, rfl, rfl⟩
      · have hfalse : (truthyStr c.name && truthyStr c.email) = false := by
          rcases hyp with h | ⟨c', hc', hn⟩ | ⟨c', hc', he⟩
          · simp at h
          · simp only [Option.some.injEq] at hc'
            subst hc'
            simp [hn]
          · simp only [Option.some.injEq] at hc'
            subst hc'
            simp [he]
        refine ⟨⟨"Customer name and email are required", ?_⟩, ?_, ?_⟩ <;>
          simp [checkout, hfalse]

/-- Witness for C3: an empty item list, and separately an empty customer
name, both yield a 400 with no lookups and no persisted orders. -/
theorem C3_validation_precedes_lookup_witness :
    ((∃ msg, (checkout demoCatalog true
        { customer := some demoCustomer, items := some [], total := .num 1 }).response
          = .error 400 msg)
      ∧ (checkout demoCatalog true
          { customer := some demoCustomer, items := some [], total := .num 1 }).lookups = []
      ∧ (checkout demoCatalog true
          { customer := some demoCustomer, items := some [], total := .num 1 }).persisted = [])
    ∧ ((∃ msg, (checkout demoCatalog true
        { customer := some ⟨some "", some "a@b.c", none⟩,
          items := demoReq.items, total := .num 1 }).response = .error 400 msg)
      ∧ (checkout demoCatalog true
          { customer := some ⟨some "", some "a@b.c", none⟩,
            items := demoReq.items, total := .num 1 }).lookups = []
      ∧ (checkout demoCatalog true
          { customer := some ⟨some "", some "a@b.c", none⟩,
            items := demoReq.items, total := .num 1 }).persisted = []) :=
  ⟨C3_validation_precedes_lookup demoCatalog true _ (Or.inl rfl),
   C3_validation_precedes_lookup demoCatalog true _
     (Or.inr (Or.inl ⟨⟨some "", some "a@b.c", none⟩, rfl, rfl⟩))⟩

/-- Counterexample for C2 as stated: the item identifier
`"deleted-product-1"` has no matching product (the catalog is empty), so
the claim demands a client-error response naming that identifier.  The
handler instead throws inside `new ObjectId(String(item._id))` — the
identifier is not a 24-character hex string — and the outer `catch`
returns the generic 500 `"Checkout failed. Please try again."`, a server
error that does not name the identifier.  (Zero orders are still
persisted.) -/
theorem C2_unknown_product_counterexample :
    ([] : List Product).find? (fun p => p._id == "deleted-product-1") = none
    ∧ checkout [] true badIdReq
        = ⟨.error 500 "Checkout failed. Please try again.", [], []⟩ :=
  ⟨rfl, by decide⟩

/-- C2 (amended): whenever some request item has no matching catalog
product, zero orders are persisted; and if in addition every item
identifier is a well-formed 24-character hex ObjectId string (and the
payload passes validation), the response is a 400 client error naming the
first unresolvable identifier.  (An identifier that is not a well-formed
ObjectId string instead produces the generic 500 of the surrounding
`catch`, which names nothing.) -/
theorem C2_unknown_product_aborts :
    ∀ (catalog : List Product) (persistOk : Bool) (req : CheckoutRequest)
      (items : List ReqItem),
      req.items = some items →
      (∃ it ∈ items, catalog.find? (fun p => p._id == it._id) = none) →
      (checkout catalog persistOk req).persisted = []
      ∧ ((∀ it ∈ items, isValidObjectId it._id = true) →
         ∀ customer, req.customer = some customer →
         truthyStr customer.name = true → truthyStr customer.email = true →
         ∃ badId, badId ∈ items.map (fun it => it._id)
           ∧ catalog.find? (fun p => p._id == badId) = none
           ∧ (checkout catalog persistOk req).response
               = .error 400 ("Product not found: " ++ badId)) := by
  intro catalog persistOk req items hitems hmiss
  rcases req with ⟨cu, its, t⟩
  simp only at hitems
  subst hitems
  constructor
  · rcases cu with _ | c
    · rfl
    · rcases items with _ | ⟨x, xs⟩
      · rfl
      · by_cases hv : (truthyStr c.name && truthyStr c.email) = true
        · rcases hloop : verifyLoop catalog (x :: xs) [] 0 [] with ⟨out, lks⟩
          cases out with
          | ok vs tt => exact absurd hloop (verifyLoop_not_ok catalog _ hmiss _ _ _ vs tt lks)
          | notFound b => simp [checkout, hv, hloop]
          | thrown => simp [checkout, hv, hloop]
        · simp [checkout, hv]
  · intro hval customer hcu hn he
    subst hcu
    rcases items with _ | ⟨x, xs⟩
    · simp at hmiss
    · rcases verifyLoop_notFound catalog (x :: xs) hval hmiss [] 0 []
        with ⟨badId, lks', heq, hmem, hnone⟩
      refine ⟨badId, hmem, hnone, ?_⟩
      simp [checkout, hn, he, heq]

/-- Witness for C2 (amended): a request for the well-formed but absent
identifier `bbbb…b` against the one-product catalog `[pA]` persists
nothing and yields the 400 naming that identifier. -/
theorem C2_unknown_product_aborts_witness :
    (checkout [pA] true missReq).persisted = []
    ∧ (checkout [pA] true missReq).response
        = .error 400 ("Product not found: " ++ "bbbbbbbbbbbbbbbbbbbbbbbb") := by
  have h := C2_unknown_product_aborts [pA] true missReq
      [⟨"bbbbbbbbbbbbbbbbbbbbbbbb", ClientVal.num 1⟩] rfl
      ⟨⟨"bbbbbbbbbbbbbbbbbbbbbbbb", ClientVal.num 1⟩, by simp, by decide⟩
  refine ⟨h.1, ?_⟩
  rcases h.2 (by decide) ⟨some "A", some "a@b.c", none⟩ rfl (by decide) (by decide)
    with ⟨badId, hmem, hnone, hresp⟩
  simp only [List.map_cons, List.map_nil, List.mem_singleton] at hmem
  rw [hmem] at hresp
  exact hresp

/-- C4: the quantity the verifier uses is an integer ≥ 1 — non-numeric
(`parseInt` gives `NaN`) and ≤ 0 claims are clamped to 1; the verified
lines of a fully-resolving item list are exactly the catalog data with
those clamped quantities, the loop's accumulated total is the exact sum of
price × quantity over them, and the order's total (persisted and
returned) is that sum rounded half-up at the cent; concretely, catalog
price $19.99 with claimed quantity `"abc"` produces the total $19.99. -/
theorem C4_quantity_normalization_and_total :
    (∀ v : ClientVal, 1 ≤ normalizeQty v)
    ∧ (∀ v : ClientVal, parseIntJS v = none → normalizeQty v = 1)
    ∧ (∀ (v : ClientVal) (n : Int), parseIntJS v = some n → n ≤ 0 →
        normalizeQty v = 1)
    ∧ (∀ (catalog : List Product) (items : List ReqItem) (vs : List VerifiedItem),
        (∀ it ∈ items, isValidObjectId it._id = true) →
        items.mapM (resolveItem catalog) = some vs →
        verifyLoop catalog items [] 0 []
          = (.ok vs (sumContrib vs), items.map (fun it => it._id)))
    ∧ (∀ (catalog : List Product) (customer : CustomerJS) (items : List ReqItem)
         (vs : List VerifiedItem) (t : ClientVal),
        truthyStr customer.name = true → truthyStr customer.email = true →
        items ≠ [] →
        (∀ it ∈ items, isValidObjectId it._id = true) →
        items.mapM (resolveItem catalog) = some vs →
        (checkout catalog true ⟨some customer, some items, t⟩).response
            = .created (round2 (sumContrib vs)) "Order placed successfully"
        ∧ (checkout catalog true ⟨some customer, some items, t⟩).persisted.map Order.items
            = [vs]
        ∧ (checkout catalog true ⟨some customer, some items, t⟩).persisted.map Order.total
            = [round2 (sumContrib vs)])
    ∧ (checkout [pA] true qtyAbcReq).response
        = .created (1999/100) "Order placed successfully" := by
  have hclamp : ∀ v : ClientVal, 1 ≤ normalizeQty v := fun v => le_max_left 1 _
  have hnan : ∀ v : ClientVal, parseIntJS v = none → normalizeQty v = 1 := by
    intro v h
    simp [normalizeQty, h]
  have hnonpos : ∀ (v : ClientVal) (n : Int), parseIntJS v = some n → n ≤ 0 →
      normalizeQty v = 1 := by
    intro v n h hle
    simp only [normalizeQty, h]
    by_cases h0 : n = 0
    · simp [h0]
    · rw [if_neg h0]
      exact max_eq_left (by omega)
  have hloop : ∀ (catalog : List Product) (items : List ReqItem)
      (vs : List VerifiedItem),
      (∀ it ∈ items, isValidObjectId it._id = true) →
      items.mapM (resolveItem catalog) = some vs →
      verifyLoop catalog items [] 0 []
        = (.ok vs (sumContrib vs), items.map (fun it => it._id)) := by
    intro catalog items vs hval hres
    rw [verifyLoop_ok catalog items vs hval hres [] 0 []]
    simp
  refine ⟨hclamp, hnan, hnonpos, hloop, ?_, ?_⟩
  · intro catalog customer items vs t hn he hne hval hres
    have hl := hloop catalog items vs hval hres
    have hemp : items.isEmpty = false := by
      cases items with
      | nil => exact absurd rfl hne
      | cons x xs => rfl
    refine ⟨?_, ?_, ?_⟩ <;> simp [checkout, hemp, hn, he, hl]
  · have h1 : normalizeQty (ClientVal.str "abc") = 1 := by decide
    simp [checkout, qtyAbcReq, pA, verifyLoop, isValidObjectId, hexDigit?,
          truthyStr, h1,
          show ("aaaaaaaaaaaaaaaaaaaaaaaa".length = 24) from by decide]
    norm_num [round2]

/-- Witness for C4: the clamp at `"abc"` (non-numeric) and `-7` (≤ 0),
the loop outcome for the one-item `"abc"`-quantity request against the
$19.99 catalog, and the persisted total of that checkout. -/
theorem C4_quantity_normalization_and_total_witness :
    1 ≤ normalizeQty (ClientVal.str "abc")
    ∧ normalizeQty (ClientVal.str "abc") = 1
    ∧ normalizeQty (ClientVal.num (-7)) = 1
    ∧ verifyLoop [pA] [⟨"aaaaaaaaaaaaaaaaaaaaaaaa", ClientVal.str "abc"⟩] [] 0 []
        = (.ok [viAbc] (sumContrib [viAbc]), ["aaaaaaaaaaaaaaaaaaaaaaaa"])
    ∧ (checkout [pA] true qtyAbcReq).persisted.map Order.total
        = [round2 (sumContrib [viAbc])] :=
  ⟨C4_quantity_normalization_and_total.1 _,
   C4_quantity_normalization_and_total.2.1 _ (by decide),
   C4_quantity_normalization_and_total.2.2.1 _ (-7) (by decide) (by decide),
   C4_quantity_normalization_and_total.2.2.2.1 [pA] _ [viAbc]
     (by decide) rfl,
   (C4_quantity_normalization_and_total.2.2.2.2.1 [pA]
     ⟨some "A", some "a@b.c", none⟩ [⟨"aaaaaaaaaaaaaaaaaaaaaaaa", ClientVal.str "abc"⟩]
     [viAbc] (.num 1) (by decide) (by decide) (by decide) (by decide) rfl).2.2⟩
